import Mathlib

/-!
Shallow embedding of the COG tile-rendering client
(frontend/app/lib/cogLayerClient.ts) of the US_Fire_Tracker repository:
tile geometry, bounding-box intersection, overview selection,
the throttled render pipeline and the colorizers, together with proofs
of the specification claims about them.

The client's numeric values (JS double-precision numbers) are modelled by
an arbitrary linear ordered field with a floor function; concrete
evaluations instantiate it at the rationals, and the tile-geometry facts
that involve the Mercator latitude formula are stated over the reals.
-/

namespace CogClient

/- -------------------------------------------------------------------
   CONFIG (source lines 136-144)
   ------------------------------------------------------------------- -/

/-- Source line 136: maximum number of concurrently admitted tile jobs. -/
def MAX_CONCURRENT : ℕ := 6

/-- Source line 139: soft budget of source pixels per tile. -/
def SAFE_SOURCE_PIXELS : ℤ := 4000000

/-- Source line 140: hard ceiling of source pixels per tile. -/
def HARD_LIMIT_SOURCE_PIXELS : ℤ := 50000000

/-- A geographic bounding box; the source represents it as the 4-tuple
[minLon, minLat, maxLon, maxLat] and destructures it to
(minX, minY, maxX, maxY) in bboxesIntersect. -/
structure BBox (α : Type) where
  minX : α
  minY : α
  maxX : α
  maxY : α
deriving DecidableEq

/-- Source line 143: hard-coded enforced extent (North America region),
[-128.38690525209998, 22.428354333912164, -64.05404295852681, 52.481560035612816]
written as exact fractions. -/
def COG_BOUNDS (α : Type) [DivisionRing α] : BBox α :=
  { minX := -12838690525209998 / 100000000000000
    minY := 22428354333912164 / 1000000000000000
    maxX := -6405404295852681 / 100000000000000
    maxY := 52481560035612816 / 1000000000000000 }

/- -------------------------------------------------------------------
   TileGeometry helpers (source lines 466-481)
   ------------------------------------------------------------------- -/

/-- Source lines 477-481: axis-separation intersection test on bounding
boxes; true unless one box lies strictly beyond the other on some axis. -/
def bboxesIntersect {α : Type} [LinearOrder α] (a b : BBox α) : Prop :=
  ¬(a.maxX < b.minX ∨ a.minX > b.maxX ∨ a.maxY < b.minY ∨ a.minY > b.maxY)

instance {α : Type} [LinearOrder α] (a b : BBox α) :
    Decidable (bboxesIntersect a b) := by
  unfold bboxesIntersect; infer_instance

/-- Source lines 466-475: slippy-tile index to geographic bounding box,
with the spherical-Mercator inverse for the latitudes. -/
noncomputable def tileToBBox (x y z : ℕ) : BBox ℝ :=
  { minX := ((x : ℝ) / 2 ^ z) * 360 - 180
    minY := Real.arctan (Real.sinh (Real.pi * (1 - 2 * ((y : ℝ) + 1) / 2 ^ z))) * 180 / Real.pi
    maxX := (((x : ℝ) + 1) / 2 ^ z) * 360 - 180
    maxY := Real.arctan (Real.sinh (Real.pi * (1 - 2 * (y : ℝ) / 2 ^ z))) * 180 / Real.pi }

/- -------------------------------------------------------------------
   Color maps & legend (source lines 124-223)
   ------------------------------------------------------------------- -/

/-- Source line 124: the two raster layers served by the client. -/
inductive CogLayerName where
  | fuel
  | slope
deriving DecidableEq

/-- Source lines 126-129: one legend entry of the fuel color map. -/
structure ColorMapEntry where
  label : String
  color : String
deriving DecidableEq

/-- A raw sample value handed to the colorizer.  JS numbers may be NaN,
and the source additionally guards against null and undefined entries,
so a sample is one of those sentinels or an ordinary number. -/
inductive Sample (α : Type) where
  | null
  | undef
  | nan
  | num (v : α)
deriving DecidableEq

/-- One RGBA pixel of the output ImageData buffer.  The Uint8ClampedArray
backing clamps stored values to [0, 255]; every value the source writes
already lies in that range, so channels are kept as plain integers. -/
structure RGBA where
  r : ℤ
  g : ℤ
  b : ℤ
  a : ℤ
deriving DecidableEq

/-- Whether a character is matched by the class [a-f\d] of the hex-color
regular expression on source line 200 (case-insensitive). -/
def isHexDigitChar (c : Char) : Bool :=
  decide ('0' ≤ c ∧ c ≤ '9') || decide ('a' ≤ c ∧ c ≤ 'f') || decide ('A' ≤ c ∧ c ≤ 'F')

/-- Numeric value of one hex digit, as read by parseInt(-, 16). -/
def hexDigitVal (c : Char) : ℤ :=
  if '0' ≤ c ∧ c ≤ '9' then (c.toNat : ℤ) - ('0'.toNat : ℤ)
  else if 'a' ≤ c ∧ c ≤ 'f' then (c.toNat : ℤ) - ('a'.toNat : ℤ) + 10
  else if 'A' ≤ c ∧ c ≤ 'F' then (c.toNat : ℤ) - ('A'.toNat : ℤ) + 10
  else 0

/-- Two hex digits parsed as one byte. -/
def hexPair (c1 c2 : Char) : ℤ := hexDigitVal c1 * 16 + hexDigitVal c2

/-- Source lines 199-204: parse a color string against the anchored
regular expression #?([a-f\d]{2})([a-f\d]{2})([a-f\d]{2}) and return the
three parsed bytes, with (200, 200, 200) as fallback when the string
does not match. -/
def hexToRgb (hex : String) : ℤ × ℤ × ℤ :=
  let cs := hex.toList
  let cs := if cs.head? = some '#' then cs.tail else cs
  match cs with
  | [c1, c2, c3, c4, c5, c6] =>
    if isHexDigitChar c1 && isHexDigitChar c2 && isHexDigitChar c3 &&
        isHexDigitChar c4 && isHexDigitChar c5 && isHexDigitChar c6 then
      (hexPair c1 c2, hexPair c3 c4, hexPair c5 c6)
    else (200, 200, 200)
  | _ => (200, 200, 200)

/-- Source lines 170-180: the continuous slope color ramp. -/
def SLOPE_COLORMAP (α : Type) [LinearOrderedField α] : List (α × String) :=
  [(0, "#f7fcf5"), (5, "#e5f5e0"), (10, "#c7e9c0"), (15, "#a1d99b"),
   (20, "#74c476"), (25, "#41ab5d"), (30, "#238b45"), (35, "#006d2c"),
   (40, "#00441b")]

/-- Source lines 207-220: scan adjacent stop pairs and linearly
interpolate each channel inside the first bracketing pair. -/
def interpStops {α : Type} [LinearOrderedField α] [FloorRing α] :
    List (α × String) → α → Option (ℤ × ℤ × ℤ)
  | (v1, c1) :: (v2, c2) :: rest, value =>
    if v1 ≤ value ∧ value ≤ v2 then
      let t := (value - v1) / (v2 - v1)
      let rgb1 := hexToRgb c1
      let rgb2 := hexToRgb c2
      some (round ((rgb1.1 : α) + ((rgb2.1 : α) - (rgb1.1 : α)) * t),
            round ((rgb1.2.1 : α) + ((rgb2.2.1 : α) - (rgb1.2.1 : α)) * t),
            round ((rgb1.2.2 : α) + ((rgb2.2.2 : α) - (rgb1.2.2 : α)) * t))
    else interpStops ((v2, c2) :: rest) value
  | _, _ => none

/-- Source lines 206-223: continuous slope colorizer; values below the
first stop clamp to its color and values above the last stop clamp to
the last color.  The headD/getLastD defaults are unreachable because the
colormap literal is nonempty. -/
def getSlopeColor {α : Type} [LinearOrderedField α] [FloorRing α] (value : α) :
    ℤ × ℤ × ℤ :=
  match interpStops (SLOPE_COLORMAP α) value with
  | some rgb => rgb
  | none =>
    if value < ((SLOPE_COLORMAP α).headD (0, "")).1 then
      hexToRgb ((SLOPE_COLORMAP α).headD (0, "")).2
    else
      hexToRgb ((SLOPE_COLORMAP α).getLastD (0, "")).2

/-- Source lines 427-451: per-sample colorization.  The no-data guard
(null, undefined, NaN or negative) runs first and yields a fully
transparent pixel; then the slope layer uses the continuous ramp and the
fuel layer rounds the sample, looks the key up in the legend and falls
back to the neutral (200, 200, 200) for unknown keys; both paths write
alpha 255. -/
def colorizePixel {α : Type} [LinearOrderedField α] [FloorRing α]
    (layerName : CogLayerName) (legend : List (String × ColorMapEntry)) :
    Sample α → RGBA
  | .null => ⟨0, 0, 0, 0⟩
  | .undef => ⟨0, 0, 0, 0⟩
  | .nan => ⟨0, 0, 0, 0⟩
  | .num v =>
    if v < 0 then ⟨0, 0, 0, 0⟩
    else
      match layerName with
      | .slope =>
        let rgb := getSlopeColor v
        ⟨rgb.1, rgb.2.1, rgb.2.2, 255⟩
      | .fuel =>
        let key := toString (round v)
        match List.lookup key legend with
        | some entry =>
          let rgb := hexToRgb entry.color
          ⟨rgb.1, rgb.2.1, rgb.2.2, 255⟩
        | none => ⟨200, 200, 200, 255⟩

/-- The no-data condition of source line 431: the sample is null,
undefined, NaN, or a negative number. -/
def isNoData {α : Type} [LinearOrderedField α] : Sample α → Prop
  | .null => True
  | .undef => True
  | .nan => True
  | .num v => v < 0

/- -------------------------------------------------------------------
   The external world of one tile render: the opened GeoTIFF, the read
   oracle, the fetched legend and the canvas context
   ------------------------------------------------------------------- -/

/-- Pixel dimensions of one resolution level (getWidth / getHeight). -/
structure TiffImage where
  width : ℕ
  height : ℕ
deriving DecidableEq

/-- The environment a render job runs against: the remote GeoTIFF
(image catalog, georeference information), an oracle for the outcome of
each readRasters attempt (by attempt ordinal and image index, none
meaning the read throws), the legend returned by fetchFuelLegend, and
whether the canvas yields a 2d context. -/
structure TiffEnv (α : Type) where
  imageCount : ℕ
  images : ℕ → TiffImage
  boundingBox : Option (BBox α)
  tiepointScale : Option (α × α × α × α)
  readOutcome : ℕ → ℕ → Option (List (Sample α))
  legend : List (String × ColorMapEntry)
  ctxAvailable : Bool

/-- Source lines 306-321: the image bounding box is getBoundingBox()
when it succeeds; otherwise it is rebuilt from the ModelTiepoint
(tieX, tieY) and ModelPixelScale (scaleX, scaleY) tags of the primary
image as [tieX, tieY - scaleY*h, tieX + scaleX*w, tieY]; if those tags
are also absent the render fails with a missing-georeference error
(modelled by the none result). -/
def computeImgBbox {α : Type} [LinearOrderedField α] (env : TiffEnv α) :
    Option (BBox α) :=
  match env.boundingBox with
  | some b => some b
  | none =>
    match env.tiepointScale with
    | none => none
    | some (tieX, tieY, scaleX, scaleY) =>
      let w := (env.images 0).width
      let h := (env.images 0).height
      some ⟨tieX, tieY - scaleY * (h : α), tieX + scaleX * (w : α), tieY⟩

/- -------------------------------------------------------------------
   Overview selection (source lines 332-390)
   ------------------------------------------------------------------- -/

/-- Source lines 335-351: estimate of how many source pixels of one
resolution level the tile's window covers: clamp the tile bounds to the
image bounds (an empty clamp costs zero pixels), take the covered
fraction of each axis, scale by the level's pixel dimensions, and round
each axis up. -/
def computeSourcePixels {α : Type} [LinearOrderedField α] [FloorRing α]
    (img : TiffImage) (imgBbox tileBounds : BBox α) : ℤ :=
  let imgWidthDeg := imgBbox.maxX - imgBbox.minX
  let imgHeightDeg := imgBbox.maxY - imgBbox.minY
  let clampedMinX := max tileBounds.minX imgBbox.minX
  let clampedMaxX := min tileBounds.maxX imgBbox.maxX
  let clampedMinY := max tileBounds.minY imgBbox.minY
  let clampedMaxY := min tileBounds.maxY imgBbox.maxY
  if clampedMaxX ≤ clampedMinX ∨ clampedMaxY ≤ clampedMinY then 0
  else
    ⌈(clampedMaxX - clampedMinX) / imgWidthDeg * (img.width : α)⌉ *
      ⌈(clampedMaxY - clampedMinY) / imgHeightDeg * (img.height : α)⌉

/-- The break condition of the selection loop (source lines 358-369):
the level is taken when its estimate is zero or within the soft
budget. -/
def pickPred (pix : ℕ → ℤ) (i : ℕ) : Prop :=
  pix i = 0 ∨ pix i ≤ SAFE_SOURCE_PIXELS

instance (pix : ℕ → ℤ) (i : ℕ) : Decidable (pickPred pix i) := by
  unfold pickPred; infer_instance

/-- First index of the scan order satisfying the break condition, or the
fallback when none does. -/
def pickFirst (pix : ℕ → ℤ) (fallback : ℕ) : List ℕ → ℕ
  | [] => fallback
  | i :: rest => if pickPred pix i then i else pickFirst pix fallback rest

/-- Source lines 332-370: scan the overview levels from the coarsest
(index imageCount - 1) down to the finest (index 0) and keep the first
whose estimate breaks the loop; the initial choice, kept when no level
breaks, is the coarsest level. -/
def chooseOverview (imageCount : ℕ) (pix : ℕ → ℤ) : ℕ × ℤ :=
  let idx := pickFirst pix (imageCount - 1) (List.range imageCount).reverse
  (idx, pix idx)

/-- The overview chosen for a tile against an opened source. -/
def chosenOverviewOf {α : Type} [LinearOrderedField α] [FloorRing α]
    (env : TiffEnv α) (imgBbox tileBounds : BBox α) : ℕ × ℤ :=
  chooseOverview env.imageCount
    (fun i => computeSourcePixels (env.images i) imgBbox tileBounds)

/- -------------------------------------------------------------------
   The render pipeline (source lines 273-460)
   ------------------------------------------------------------------- -/

/-- One readRasters invocation with the arguments the source passes on
lines 395-399 and 404: the image index read from, and the bbox, width
and height options. -/
structure ReadCall (α : Type) where
  imageIndex : ℕ
  bbox : BBox α
  width : ℕ
  height : ℕ
deriving DecidableEq

/-- What the done callback delivers for the canvas. -/
inductive TileContent where
  | transparent
  | painted (pixels : List RGBA)
deriving DecidableEq

/-- The errors the pipeline can hand to the done callback. -/
inductive RenderError where
  | noGeoreference
  | readFailed
  | noCanvasContext
deriving DecidableEq

/-- Result of the done callback: a tile or an error. -/
inductive DoneOutcome where
  | ok (content : TileContent)
  | err (e : RenderError)
deriving DecidableEq

/-- Result of one renderCogTile job, together with the externally
visible effects the claims talk about: whether fromUrl was invoked,
the readRasters calls issued, whether the fuel legend was fetched, and
whether the strict too-coarse console error was logged. -/
structure RenderResult (α : Type) where
  outcome : DoneOutcome
  fromUrlCalled : Bool
  readCalls : List (ReadCall α)
  legendFetched : Bool
  tooCoarseLogged : Bool
deriving DecidableEq

/-- Source lines 393-411: read the chosen overview; when that read
throws, retry once on the smallest (coarsest) overview; return the band
obtained, if any, and the list of readRasters calls issued.  Both calls
pass the image bounding box and the tile's output size as options,
exactly as the source does. -/
def attemptReads {α : Type} (env : TiffEnv α) (imgBbox : BBox α)
    (tileSize idx : ℕ) : Option (List (Sample α)) × List (ReadCall α) :=
  match env.readOutcome 0 idx with
  | some band => (some band, [⟨idx, imgBbox, tileSize, tileSize⟩])
  | none =>
    let calls := [⟨idx, imgBbox, tileSize, tileSize⟩,
                  ⟨env.imageCount - 1, imgBbox, tileSize, tileSize⟩]
    match env.readOutcome 1 (env.imageCount - 1) with
    | some band => (some band, calls)
    | none => (none, calls)

/-- Source lines 392-454: the read step followed by colorization.  A
failed read (after its retry) surfaces a read error; a missing canvas
context surfaces a context error; otherwise every band sample is
colorized (the fuel legend having been fetched for the fuel layer) and
the painted tile is delivered. -/
def finishRead {α : Type} [LinearOrderedField α] [FloorRing α]
    (layerName : CogLayerName) (tileSize : ℕ) (env : TiffEnv α)
    (imgBbox : BBox α) (idx : ℕ) : RenderResult α :=
  match attemptReads env imgBbox tileSize idx with
  | (none, calls) => ⟨.err .readFailed, true, calls, false, false⟩
  | (some band, calls) =>
    if env.ctxAvailable then
      ⟨.ok (.painted (band.map (colorizePixel layerName env.legend))),
       true, calls,
       (if layerName = .fuel then true else false), false⟩
    else ⟨.err .noCanvasContext, true, calls, false, false⟩

/-- Source lines 332-454: overview selection and the hard-ceiling
policy.  When the chosen estimate exceeds the hard limit, the slope
layer aborts the tile: it logs the too-coarse console error, clears the
canvas and completes successfully with a transparent tile, issuing no
read; the fuel layer instead falls back to the smallest overview and
proceeds. -/
def renderAfterGeometry {α : Type} [LinearOrderedField α] [FloorRing α]
    (layerName : CogLayerName) (tileBounds : BBox α) (tileSize : ℕ)
    (env : TiffEnv α) (imgBbox : BBox α) : RenderResult α :=
  let chosen := chosenOverviewOf env imgBbox tileBounds
  if HARD_LIMIT_SOURCE_PIXELS < chosen.2 then
    if layerName = .slope then
      ⟨.ok .transparent, true, [], false, true⟩
    else
      finishRead layerName tileSize env imgBbox (env.imageCount - 1)
  else
    finishRead layerName tileSize env imgBbox chosen.1

/-- Source lines 280-460: the renderCogTile pipeline for a tile whose
bounding box is already computed.  The quick skip against the enforced
COG_BOUNDS runs before any network access; then the source is opened,
its georeference resolved (or the job fails), the tile is checked
against the true image bounds, and the overview selection, read and
colorize steps run. -/
def renderCogTileCore {α : Type} [LinearOrderedField α] [FloorRing α]
    (layerName : CogLayerName) (tileBounds : BBox α) (tileSize : ℕ)
    (env : TiffEnv α) : RenderResult α :=
  if bboxesIntersect tileBounds (COG_BOUNDS α) then
    match computeImgBbox env with
    | none => ⟨.err .noGeoreference, true, [], false, false⟩
    | some imgBbox =>
      if bboxesIntersect tileBounds imgBbox then
        renderAfterGeometry layerName tileBounds tileSize env imgBbox
      else ⟨.ok .transparent, true, [], false, false⟩
  else ⟨.ok .transparent, false, [], false, false⟩

/-- Source lines 273-460: the full render job for tile coordinates
(x, y, z), computing the tile bounding box with tileToBBox first. -/
noncomputable def renderCogTile (layerName : CogLayerName) (x y z : ℕ)
    (tileSize : ℕ) (env : TiffEnv ℝ) : RenderResult ℝ :=
  renderCogTileCore layerName (tileToBBox x y z) tileSize env

/- -------------------------------------------------------------------
   ConcurrencyGate (source lines 149-163)
   ------------------------------------------------------------------- -/

/-- The shared state of the throttle: activeRequests, the number of
suspended callers still sitting in pendingQueue, and the number of
callers whose queue resolver has been invoked but whose continuation
(which performs activeRequests++ without re-checking) has not run yet. -/
structure GateState where
  active : ℕ
  waiting : ℕ
  signaled : ℕ
deriving DecidableEq

/-- Interleaving semantics of the throttle under the JS event loop.
Each constructor is one synchronous segment of the source:

- enterDirect / enterWait: lines 152-155, a new throttle call checks the
counter and either increments it immediately or pushes a resolver onto
pendingQueue.  New calls originate from createTile, which runs in task
context, so they can only run when no wake-up microtask is pending
(signaled = 0) - microtasks always run before the next task.
- resume: the continuation of the awaited promise on line 153 runs
activeRequests++ (line 155) without re-checking the bound.
- finishSignal / finishNoWait: lines 158-162, the finally block
decrements the counter, shifts pendingQueue and invokes the resolver if
one was queued.  The finally runs as a microtask continuation and may
interleave with other continuations freely. -/
inductive GateStep (N : ℕ) : GateState → GateState → Prop
  | enterDirect (s : GateState) (hq : s.signaled = 0) (h : s.active < N) :
      GateStep N s ⟨s.active + 1, s.waiting, s.signaled⟩
  | enterWait (s : GateState) (hq : s.signaled = 0) (h : N ≤ s.active) :
      GateStep N s ⟨s.active, s.waiting + 1, s.signaled⟩
  | resume (s : GateState) (h : 0 < s.signaled) :
      GateStep N s ⟨s.active + 1, s.waiting, s.signaled - 1⟩
  | finishSignal (s : GateState) (h : 0 < s.active) (hw : 0 < s.waiting) :
      GateStep N s ⟨s.active - 1, s.waiting - 1, s.signaled + 1⟩
  | finishNoWait (s : GateState) (h : 0 < s.active) (hw : s.waiting = 0) :
      GateStep N s ⟨s.active - 1, s.waiting, s.signaled⟩

/-- States reachable from the idle gate. -/
def GateReachable (N : ℕ) (s : GateState) : Prop :=
  Relation.ReflTransGen (GateStep N) ⟨0, 0, 0⟩ s

/-- Outcome of one admitted job's body: the promise either resolves or
rejects (the body throws). -/
inductive BodyOutcome (T : Type) where
  | ok (t : T)
  | thrown

/-- Sequential effect of lines 156-162 for one admitted job: the
propagated body outcome and how many times the release
(activeRequests-- plus waking the next waiter) ran. -/
structure FinallyRun (T : Type) where
  result : BodyOutcome T
  releases : ℕ

/-- Source lines 156-162: try { return await fn() } finally { release }.
The finally clause runs exactly once on both the resolve path and the
throw path, and the body's outcome is propagated unchanged. -/
def throttleFinally (T : Type) (body : BodyOutcome T) : FinallyRun T :=
  match body with
  | .ok t => ⟨.ok t, 1⟩
  | .thrown => ⟨.thrown, 1⟩

/- -------------------------------------------------------------------
   Concrete fixtures used by witnesses and counterexamples
   ------------------------------------------------------------------- -/

/-- A wide image bounding box (roughly the enforced extent). -/
def wideImgBox : BBox ℚ := ⟨-128, 22, -64, 52⟩

/-- A 1 x 1 degree tile strictly inside wideImgBox. -/
def innerTile : BBox ℚ := ⟨-100, 30, -99, 31⟩

/-- A small single-level source whose reads succeed; 64 x 30 pixels over
wideImgBox makes the tile's estimate exactly 1 source pixel. -/
def readEnv : TiffEnv ℚ :=
  { imageCount := 1
    images := fun _ => ⟨64, 30⟩
    boundingBox := some wideImgBox
    tiepointScale := none
    readOutcome := fun _ _ => some [Sample.num 5]
    legend := []
    ctxAvailable := true }

/-- A single-level source that is far too coarse: 640,000 x 300,000
pixels over wideImgBox puts the tile estimate at 10^10 source pixels. -/
def coarseEnv : TiffEnv ℚ :=
  { imageCount := 1
    images := fun _ => ⟨640000, 300000⟩
    boundingBox := some wideImgBox
    tiepointScale := none
    readOutcome := fun _ _ => some [Sample.num 5]
    legend := []
    ctxAvailable := true }

/-- A source whose first read attempt always throws and whose retry
succeeds. -/
def retryEnv : TiffEnv ℚ :=
  { imageCount := 1
    images := fun _ => ⟨64, 30⟩
    boundingBox := some wideImgBox
    tiepointScale := none
    readOutcome := fun attempt _ => if attempt = 0 then none else some []
    legend := []
    ctxAvailable := true }

/-- An arbitrary real-coordinate environment for the out-of-bounds
witness (its tile never reaches the network). -/
noncomputable def outsideEnv : TiffEnv ℝ :=
  { imageCount := 1
    images := fun _ => ⟨256, 256⟩
    boundingBox := some ⟨-128, 22, -64, 52⟩
    tiepointScale := none
    readOutcome := fun _ _ => none
    legend := []
    ctxAvailable := true }

/-- The per-level pixel estimates used by the overview-selection
witness: level 2 (coarsest) is over the soft budget, level 1 fits,
level 0 is over again. -/
def pixExample : ℕ → ℤ :=
  fun i => if i = 2 then 5000000 else if i = 1 then 3000000 else 10000000

/-- The legend of the categorical scenario. -/
def fuelLegendExample : List (String × ColorMapEntry) :=
  [("2", ⟨"Type 2", "#addd8e"⟩)]

/- -------------------------------------------------------------------
   Helper lemmas
   ------------------------------------------------------------------- -/

/-- Any reachable gate state keeps active jobs plus pending wakeups
within the bound: entries require a free slot and no pending wakeup,
wakeups convert a signal into an active job, and releases free a slot
(possibly handing it to one waiter as a signal). -/
theorem gate_invariant {N : ℕ} {s : GateState} (h : GateReachable N s) :
    s.active + s.signaled ≤ N := by
  induction h with
  | refl => simp
  | tail _ step ih =>
    cases step with
    | enterDirect hq hlt => simp only at ih ⊢; omega
    | enterWait hq hle => simp only at ih ⊢; omega
    | resume hs => simp only at ih ⊢; omega
    | finishSignal ha hw => simp only at ih ⊢; omega
    | finishNoWait ha hw => simp only at ih ⊢; omega

/-- Both readRasters attempt lists start with the call on the requested
index, carrying the image bbox and the square tile size. -/
theorem attemptReads_calls_head {α : Type} (env : TiffEnv α) (b : BBox α)
    (ts idx : ℕ) :
    ((attemptReads env b ts idx).2).head? = some ⟨idx, b, ts, ts⟩ := by
  unfold attemptReads
  cases h0 : env.readOutcome 0 idx with
  | some band => rfl
  | none =>
    cases h1 : env.readOutcome 1 (env.imageCount - 1) with
    | some band => rfl
    | none => rfl

/-- finishRead issues exactly the readRasters calls of attemptReads. -/
theorem finishRead_readCalls {α : Type} [LinearOrderedField α] [FloorRing α]
    (layerName : CogLayerName) (ts : ℕ) (env : TiffEnv α) (b : BBox α)
    (idx : ℕ) :
    (finishRead layerName ts env b idx).readCalls =
      (attemptReads env b ts idx).2 := by
  unfold finishRead
  rcases h : attemptReads env b ts idx with ⟨bandOpt, calls⟩
  cases bandOpt with
  | none => rfl
  | some band => cases hc : env.ctxAvailable <;> simp [hc]

/- -------------------------------------------------------------------
   Claim theorems
   ------------------------------------------------------------------- -/

/-- C4: in every interleaving of tile jobs through the throttle (with
new calls entering between microtasks, as the JS event loop
guarantees), the active-request count never exceeds MAX_CONCURRENT = 6,
and each admitted job runs the finally release exactly once, on both
the resolve path and the throw path of its body. -/
theorem gate_bounded_and_single_release :
    (∀ s : GateState, GateReachable MAX_CONCURRENT s →
      s.active ≤ MAX_CONCURRENT) ∧
    (∀ (T : Type) (body : BodyOutcome T),
      (throttleFinally T body).releases = 1 ∧
      (throttleFinally T body).result = body) := by
  constructor
  · intro s h
    have := gate_invariant h
    omega
  · intro T body
    cases body with
    | ok t => exact ⟨rfl, rfl⟩
    | thrown => exact ⟨rfl, rfl⟩

/-- Witness for C4: the state reached by one direct admission is
reachable and within the bound. -/
theorem gate_bounded_and_single_release_witness :
    (GateState.mk 1 0 0).active ≤ MAX_CONCURRENT :=
  gate_bounded_and_single_release.1 ⟨1, 0, 0⟩
    (Relation.ReflTransGen.single
      (GateStep.enterDirect ⟨0, 0, 0⟩ rfl (by decide)))

/-- C7: every no-data sample (null, undefined, NaN or negative) is
rendered as the fully transparent pixel, with alpha 0, for both the
slope and the fuel colorizer paths and independently of the legend. -/
theorem nodata_renders_alpha_zero {α : Type} [LinearOrderedField α]
    [FloorRing α] (layerName : CogLayerName)
    (legend : List (String × ColorMapEntry)) (s : Sample α)
    (h : isNoData s) :
    colorizePixel layerName legend s = ⟨0, 0, 0, 0⟩ := by
  cases s with
  | null => rfl
  | undef => rfl
  | nan => rfl
  | num v =>
    have hv : v < 0 := h
    simp only [colorizePixel, if_pos hv]

/-- Witness for C7: the negative sample -1 renders transparent on the
fuel path. -/
theorem nodata_renders_alpha_zero_witness :
    colorizePixel (α := ℚ) .fuel [] (.num (-1)) = ⟨0, 0, 0, 0⟩ :=
  nodata_renders_alpha_zero .fuel [] (.num (-1)) (by norm_num [isNoData])

/-- C9 (amended): the intersection test performs only the standard
separating-axis comparisons and never checks well-formedness, so it
reports an intersection exactly when neither box lies strictly beyond
the other on either axis; a box violating the minX ≤ maxX / minY ≤ maxY
invariant is not special-cased and can still report an intersection. -/
theorem bboxesIntersect_characterization {α : Type} [LinearOrder α]
    (a b : BBox α) :
    bboxesIntersect a b ↔
      (b.minX ≤ a.maxX ∧ a.minX ≤ b.maxX ∧ b.minY ≤ a.maxY ∧
        a.minY ≤ b.maxY) := by
  unfold bboxesIntersect
  simp only [gt_iff_lt, not_or, not_lt]

/-- Counterexample for C9: the box (5, 0, 3, 10) violates the
invariant (minX = 5 > maxX = 3), yet the intersection test still
reports an intersection with (0, 0, 10, 10) instead of short-circuiting
to no intersection. -/
theorem malformed_box_reports_intersection :
    (BBox.mk (5 : ℚ) 0 3 10).minX > (BBox.mk (5 : ℚ) 0 3 10).maxX ∧
    bboxesIntersect (BBox.mk (5 : ℚ) 0 3 10) (BBox.mk 0 0 10 10) := by
  constructor
  · decide
  · decide

/-- The scan over the reversed range either returns the first index (in
descending order) satisfying the break condition, with every earlier
scanned index failing it, or returns the fallback with every index
failing it. -/
theorem pickFirst_range_spec (pix : ℕ → ℤ) (fb : ℕ) :
    ∀ n : ℕ,
      (pickFirst pix fb (List.range n).reverse < n ∧
        pickPred pix (pickFirst pix fb (List.range n).reverse) ∧
        ∀ i, pickFirst pix fb (List.range n).reverse < i → i < n →
          ¬ pickPred pix i) ∨
      (pickFirst pix fb (List.range n).reverse = fb ∧
        ∀ i, i < n → ¬ pickPred pix i)
  | 0 => by
    right
    refine ⟨?_, fun i hi => absurd hi (by omega)⟩
    simp [pickFirst]
  | n + 1 => by
    have hrw : (List.range (n + 1)).reverse = n :: (List.range n).reverse := by
      simp [List.range_succ]
    rw [hrw]
    by_cases hp : pickPred pix n
    · rw [show pickFirst pix fb (n :: (List.range n).reverse) = n by
        simp [pickFirst, hp]]
      exact Or.inl ⟨Nat.lt_succ_self n, hp, fun i h1 h2 => absurd h1 (by omega)⟩
    · rw [show pickFirst pix fb (n :: (List.range n).reverse) =
          pickFirst pix fb (List.range n).reverse by simp [pickFirst, hp]]
      rcases pickFirst_range_spec pix fb n with ⟨h1, h2, h3⟩ | ⟨h1, h2⟩
      · refine Or.inl ⟨by omega, h2, fun i hi1 hi2 => ?_⟩
        rcases (by omega : i < n ∨ i = n) with h | h
        · exact h3 i hi1 h
        · rw [h]; exact hp
      · refine Or.inr ⟨h1, fun i hi => ?_⟩
        rcases (by omega : i < n ∨ i = n) with h | h
        · exact h2 i h
        · rw [h]; exact hp

/-- C5: the overview selector scans the levels from the coarsest
(highest index) to the finest (index 0) and returns the first level
whose source-pixel estimate is within the soft budget
SAFE_SOURCE_PIXELS, every coarser level exceeding it; when no level is
within budget it falls back to the coarsest level, index
imageCount - 1. -/
theorem overview_selection_policy (n : ℕ) (pix : ℕ → ℤ) (hn : 0 < n) :
    (chooseOverview n pix).2 = pix (chooseOverview n pix).1 ∧
    (((chooseOverview n pix).1 < n ∧
        pix (chooseOverview n pix).1 ≤ SAFE_SOURCE_PIXELS ∧
        ∀ i, (chooseOverview n pix).1 < i → i < n →
          SAFE_SOURCE_PIXELS < pix i) ∨
      ((chooseOverview n pix).1 = n - 1 ∧
        ∀ i, i < n → SAFE_SOURCE_PIXELS < pix i)) := by
  have hSAFE : (0 : ℤ) ≤ SAFE_SOURCE_PIXELS := by decide
  have hnot : ∀ i, ¬ pickPred pix i → SAFE_SOURCE_PIXELS < pix i := by
    intro i hi
    rcases not_or.mp hi with ⟨_, hle⟩
    exact not_le.mp hle
  have hidx : (chooseOverview n pix).1 =
      pickFirst pix (n - 1) (List.range n).reverse := rfl
  refine ⟨rfl, ?_⟩
  rcases pickFirst_range_spec pix (n - 1) n with ⟨h1, h2, h3⟩ | ⟨h1, h2⟩
  · left
    rw [hidx]
    refine ⟨h1, ?_, fun i hi1 hi2 => hnot i (h3 i hi1 hi2)⟩
    rcases h2 with h0 | hle
    · rw [h0]; exact hSAFE
    · exact hle
  · right
    rw [hidx]
    exact ⟨h1, fun i hi => hnot i (h2 i hi)⟩

/-- Witness for C5: with three levels whose estimates are 10,000,000 /
3,000,000 / 5,000,000 (fine to coarse), the characterization holds; the
selected level is level 1, the first within budget from the coarse
end. -/
theorem overview_selection_policy_witness :
    (chooseOverview 3 pixExample).2 = pixExample (chooseOverview 3 pixExample).1 ∧
    (((chooseOverview 3 pixExample).1 < 3 ∧
        pixExample (chooseOverview 3 pixExample).1 ≤ SAFE_SOURCE_PIXELS ∧
        ∀ i, (chooseOverview 3 pixExample).1 < i → i < 3 →
          SAFE_SOURCE_PIXELS < pixExample i) ∨
      ((chooseOverview 3 pixExample).1 = 3 - 1 ∧
        ∀ i, i < 3 → SAFE_SOURCE_PIXELS < pixExample i)) :=
  overview_selection_policy 3 pixExample (by decide)

/-- C8: the categorical colorizer rounds the sample to the nearest
integer and looks its decimal string up in the legend: a present key
paints that entry's parsed hex color with alpha 255, an unknown key
paints the neutral fallback (200, 200, 200) with alpha 255 (neither
transparent nor an error), and on the scenario legend entry
"2" → "#addd8e" the sample 2 yields RGB (173, 221, 142), alpha 255. -/
theorem categorical_lookup_behavior (legend : List (String × ColorMapEntry))
    (v : ℚ) (h : 0 ≤ v) :
    ((∀ entry, List.lookup (toString (round v)) legend = some entry →
        colorizePixel .fuel legend (.num v) =
          ⟨(hexToRgb entry.color).1, (hexToRgb entry.color).2.1,
            (hexToRgb entry.color).2.2, 255⟩) ∧
      (List.lookup (toString (round v)) legend = none →
        colorizePixel .fuel legend (.num v) = ⟨200, 200, 200, 255⟩)) ∧
    colorizePixel (α := ℚ) .fuel fuelLegendExample (.num 2) =
      ⟨173, 221, 142, 255⟩ := by
  have hnotlt : ¬ v < 0 := not_lt.mpr h
  refine ⟨⟨?_, ?_⟩, ?_⟩
  · intro entry he
    simp only [colorizePixel, if_neg hnotlt, he]
  · intro he
    simp only [colorizePixel, if_neg hnotlt, he]
  · have h2 : round (2 : ℚ) = 2 := round_ofNat 2
    simp only [colorizePixel, if_neg (by norm_num : ¬ (2 : ℚ) < 0), h2]
    decide

/-- Witness for C8: the concrete scenario pixel. -/
theorem categorical_lookup_behavior_witness :
    colorizePixel (α := ℚ) .fuel fuelLegendExample (.num 2) =
      ⟨173, 221, 142, 255⟩ :=
  (categorical_lookup_behavior fuelLegendExample 2 (by norm_num)).2

/-- C10: every tile index within range at its zoom level maps to a
well-formed bounding box: the west edge is strictly left of the east
edge and the south edge strictly below the north edge, so tile
footprints always satisfy the GeoBox invariant. -/
theorem tileToBBox_wellFormed (x y z : ℕ) (hx : x < 2 ^ z)
    (hy : y < 2 ^ z) :
    (tileToBBox x y z).minX < (tileToBBox x y z).maxX ∧
    (tileToBBox x y z).minY < (tileToBBox x y z).maxY := by
  have hn : (0 : ℝ) < 2 ^ z := by positivity
  constructor
  · simp only [tileToBBox]
    have h1 : (x : ℝ) / 2 ^ z < ((x : ℝ) + 1) / 2 ^ z := by
      rw [div_lt_div_iff hn hn]
      nlinarith
    linarith
  · simp only [tileToBBox]
    have h2 : 2 * (y : ℝ) / 2 ^ z < 2 * ((y : ℝ) + 1) / 2 ^ z := by
      rw [div_lt_div_iff hn hn]
      nlinarith
    have hpi := Real.pi_pos
    have h3 : Real.pi * (1 - 2 * ((y : ℝ) + 1) / 2 ^ z) <
        Real.pi * (1 - 2 * (y : ℝ) / 2 ^ z) := by
      nlinarith
    have h5 := Real.arctan_strictMono (Real.sinh_lt_sinh.mpr h3)
    rw [div_lt_div_iff hpi hpi]
    nlinarith [mul_pos (sub_pos.mpr h5) hpi]

/-- Witness for C10: tile (2, 3) at zoom 4 is well-formed. -/
theorem tileToBBox_wellFormed_witness :
    (tileToBBox 2 3 4).minX < (tileToBBox 2 3 4).maxX ∧
    (tileToBBox 2 3 4).minY < (tileToBBox 2 3 4).maxY :=
  tileToBBox_wellFormed 2 3 4 (by decide) (by decide)

/-- C3: a tile whose bounding box does not intersect the enforced
COG_BOUNDS extent is delivered as a fully transparent tile and causes
no fromUrl call, no readRasters call and no legend fetch. -/
theorem outside_enforced_extent_transparent (layerName : CogLayerName)
    (x y z tileSize : ℕ) (env : TiffEnv ℝ)
    (h : ¬ bboxesIntersect (tileToBBox x y z) (COG_BOUNDS ℝ)) :
    renderCogTile layerName x y z tileSize env =
      ⟨.ok .transparent, false, [], false, false⟩ := by
  unfold renderCogTile renderCogTileCore
  rw [if_neg h]

/-- Witness for C3: tile (0, 3) at zoom 4 ends at longitude -157.5,
west of the enforced extent, and renders transparent with no effects. -/
theorem outside_enforced_extent_transparent_witness :
    renderCogTile .slope 0 3 4 256 outsideEnv =
      ⟨.ok .transparent, false, [], false, false⟩ :=
  outside_enforced_extent_transparent .slope 0 3 4 256 outsideEnv
    (fun hint => hint (Or.inl (by norm_num [tileToBBox, COG_BOUNDS])))

/-- A tile that passes the enforced-bounds check, the georeference
resolution and the true-bounds check proceeds to overview selection. -/
theorem renderCore_eval {α : Type} [LinearOrderedField α] [FloorRing α]
    (layerName : CogLayerName) (tb : BBox α) (ts : ℕ) (env : TiffEnv α)
    (imgBbox : BBox α)
    (h1 : bboxesIntersect tb (COG_BOUNDS α))
    (h2 : computeImgBbox env = some imgBbox)
    (h3 : bboxesIntersect tb imgBbox) :
    renderCogTileCore layerName tb ts env =
      renderAfterGeometry layerName tb ts env imgBbox := by
  unfold renderCogTileCore
  rw [if_pos h1, h2]
  dsimp only
  rw [if_pos h3]

/-- A single-level source always selects level 0 with its estimate. -/
theorem chosenOverviewOf_single {α : Type} [LinearOrderedField α]
    [FloorRing α] (env : TiffEnv α) (hc : env.imageCount = 1)
    (b tb : BBox α) :
    chosenOverviewOf env b tb =
      (0, computeSourcePixels (env.images 0) b tb) := by
  unfold chosenOverviewOf chooseOverview
  rw [hc]
  simp [List.range_succ, pickFirst]

/-- The fixture tile lies inside the enforced COG_BOUNDS extent. -/
theorem innerTile_in_cog : bboxesIntersect innerTile (COG_BOUNDS ℚ) := by
  norm_num [bboxesIntersect, innerTile, COG_BOUNDS, not_or]

/-- The fixture tile lies inside the fixture image bounds. -/
theorem innerTile_in_wide : bboxesIntersect innerTile wideImgBox := by
  norm_num [bboxesIntersect, innerTile, wideImgBox, not_or]

/-- The 64 x 30 pixel level over wideImgBox costs exactly one source
pixel for the 1 x 1 degree fixture tile. -/
theorem small_pix_eval :
    computeSourcePixels (⟨64, 30⟩ : TiffImage) wideImgBox innerTile = 1 := by
  simp only [computeSourcePixels, wideImgBox, innerTile]
  norm_num [max_def, min_def, Int.ceil_one, Int.ceil_ofNat]

/-- The 640,000 x 300,000 pixel level over wideImgBox costs 100,000,000
source pixels for the fixture tile, above the hard ceiling. -/
theorem coarse_pix_eval :
    computeSourcePixels (⟨640000, 300000⟩ : TiffImage) wideImgBox innerTile =
      100000000 := by
  simp only [computeSourcePixels, wideImgBox, innerTile]
  norm_num [max_def, min_def, Int.ceil_one, Int.ceil_ofNat]

/-- C1 (amended): when the chosen (here coarsest) level's estimate
exceeds the hard ceiling, the slope layer aborts the tile - it logs the
explicit source-too-coarse console error and delivers a transparent
tile as a successful result rather than a typed failure - and issues no
raster read; the fuel layer instead proceeds, its first read going to
the coarsest level imageCount - 1. -/
theorem strict_too_coarse_aborts {α : Type} [LinearOrderedField α]
    [FloorRing α] (tb imgBbox : BBox α) (ts : ℕ) (env : TiffEnv α)
    (h1 : bboxesIntersect tb (COG_BOUNDS α))
    (h2 : computeImgBbox env = some imgBbox)
    (h3 : bboxesIntersect tb imgBbox)
    (h4 : HARD_LIMIT_SOURCE_PIXELS < (chosenOverviewOf env imgBbox tb).2) :
    renderCogTileCore .slope tb ts env =
      ⟨.ok .transparent, true, [], false, true⟩ ∧
    (renderCogTileCore .fuel tb ts env).readCalls.head? =
      some ⟨env.imageCount - 1, imgBbox, ts, ts⟩ := by
  constructor
  · rw [renderCore_eval .slope tb ts env imgBbox h1 h2 h3]
    simp only [renderAfterGeometry]
    rw [if_pos h4]
    simp
  · rw [renderCore_eval .fuel tb ts env imgBbox h1 h2 h3]
    simp only [renderAfterGeometry]
    rw [if_pos h4,
      if_neg (by decide : ¬ (CogLayerName.fuel = CogLayerName.slope)),
      finishRead_readCalls, attemptReads_calls_head]

/-- Witness for C1: the coarse fixture source triggers the abort for
slope and the coarsest-level read for fuel. -/
theorem strict_too_coarse_aborts_witness :
    renderCogTileCore .slope innerTile 256 coarseEnv =
      ⟨.ok .transparent, true, [], false, true⟩ ∧
    (renderCogTileCore .fuel innerTile 256 coarseEnv).readCalls.head? =
      some ⟨coarseEnv.imageCount - 1, wideImgBox, 256, 256⟩ :=
  strict_too_coarse_aborts innerTile wideImgBox 256 coarseEnv
    innerTile_in_cog rfl innerTile_in_wide
    (by rw [chosenOverviewOf_single coarseEnv rfl,
          show coarseEnv.images 0 = (⟨640000, 300000⟩ : TiffImage) from rfl,
          coarse_pix_eval]
        decide)

/-- Counterexample for C1: with the coarse fixture source the chosen
estimate (100,000,000) exceeds the hard ceiling (50,000,000), yet the
slope job's done callback receives a successful transparent tile, not a
source-too-coarse failure result; only the console error records the
abort. -/
theorem strict_too_coarse_not_a_failure :
    HARD_LIMIT_SOURCE_PIXELS <
      (chosenOverviewOf coarseEnv wideImgBox innerTile).2 ∧
    (renderCogTileCore .slope innerTile 256 coarseEnv).outcome =
      .ok .transparent ∧
    (renderCogTileCore .slope innerTile 256 coarseEnv).readCalls = [] := by
  have h4 : HARD_LIMIT_SOURCE_PIXELS <
      (chosenOverviewOf coarseEnv wideImgBox innerTile).2 := by
    rw [chosenOverviewOf_single coarseEnv rfl,
      show coarseEnv.images 0 = (⟨640000, 300000⟩ : TiffImage) from rfl,
      coarse_pix_eval]
    decide
  have heval : renderCogTileCore .slope innerTile 256 coarseEnv =
      ⟨.ok .transparent, true, [], false, true⟩ := by
    rw [renderCore_eval .slope innerTile 256 coarseEnv wideImgBox
      innerTile_in_cog rfl innerTile_in_wide]
    simp only [renderAfterGeometry]
    rw [if_pos h4]
    simp
  exact ⟨h4, by rw [heval], by rw [heval]⟩

/-- C2 (code bug): a tile that reaches the read step issues its
readRasters call with the image's full bounding box (wideImgBox) as the
bbox option, although the tile's own bounding box (innerTile) differs
from it, so the decoded grid covers the whole source image instead of
the requested tile footprint; the output size options are the tile
size. -/
theorem read_covers_image_bbox_not_tile :
    (renderCogTileCore .slope innerTile 256 readEnv).readCalls =
      [⟨0, wideImgBox, 256, 256⟩] ∧
    wideImgBox ≠ innerTile := by
  have h4 : ¬ HARD_LIMIT_SOURCE_PIXELS <
      (chosenOverviewOf readEnv wideImgBox innerTile).2 := by
    rw [chosenOverviewOf_single readEnv rfl,
      show readEnv.images 0 = (⟨64, 30⟩ : TiffImage) from rfl,
      small_pix_eval]
    decide
  constructor
  · rw [renderCore_eval .slope innerTile 256 readEnv wideImgBox
      innerTile_in_cog rfl innerTile_in_wide]
    simp only [renderAfterGeometry]
    rw [if_neg h4, finishRead_readCalls,
      chosenOverviewOf_single readEnv rfl]
    rfl
  · decide

/-- C6: when the read on the chosen level fails, exactly one retry is
issued against the coarsest level (index imageCount - 1), and the read
failure is surfaced to the done callback exactly when that retry also
fails. -/
theorem read_retries_once_at_coarsest {α : Type} [LinearOrderedField α]
    [FloorRing α] (layerName : CogLayerName) (tb imgBbox : BBox α)
    (ts : ℕ) (env : TiffEnv α)
    (h1 : bboxesIntersect tb (COG_BOUNDS α))
    (h2 : computeImgBbox env = some imgBbox)
    (h3 : bboxesIntersect tb imgBbox)
    (h4 : (chosenOverviewOf env imgBbox tb).2 ≤ HARD_LIMIT_SOURCE_PIXELS)
    (hfail : env.readOutcome 0 (chosenOverviewOf env imgBbox tb).1 = none) :
    (renderCogTileCore layerName tb ts env).readCalls =
      [⟨(chosenOverviewOf env imgBbox tb).1, imgBbox, ts, ts⟩,
       ⟨env.imageCount - 1, imgBbox, ts, ts⟩] ∧
    ((renderCogTileCore layerName tb ts env).outcome = .err .readFailed ↔
      env.readOutcome 1 (env.imageCount - 1) = none) := by
  rw [renderCore_eval layerName tb ts env imgBbox h1 h2 h3]
  simp only [renderAfterGeometry]
  rw [if_neg (not_lt.mpr h4)]
  unfold finishRead attemptReads
  rw [hfail]
  cases hr : env.readOutcome 1 (env.imageCount - 1) with
  | none => simp
  | some band =>
    cases hc : env.ctxAvailable with
    | true => simp [hc]
    | false => simp [hc]

/-- Witness for C6: the retry fixture fails its first read, issues the
retry against the (single) coarsest level, and succeeds, so no read
failure is surfaced. -/
theorem read_retries_once_at_coarsest_witness :
    (renderCogTileCore .slope innerTile 256 retryEnv).readCalls =
      [⟨(chosenOverviewOf retryEnv wideImgBox innerTile).1, wideImgBox,
         256, 256⟩,
       ⟨retryEnv.imageCount - 1, wideImgBox, 256, 256⟩] ∧
    ((renderCogTileCore .slope innerTile 256 retryEnv).outcome =
        .err .readFailed ↔
      retryEnv.readOutcome 1 (retryEnv.imageCount - 1) = none) :=
  read_retries_once_at_coarsest .slope innerTile wideImgBox 256 retryEnv
    innerTile_in_cog rfl innerTile_in_wide
    (by rw [chosenOverviewOf_single retryEnv rfl,
          show retryEnv.images 0 = (⟨64, 30⟩ : TiffImage) from rfl,
          small_pix_eval]
        decide)
    (by rw [chosenOverviewOf_single retryEnv rfl]; rfl)

end CogClient
